import Mathlib

/-!
Shallow embedding of the streaming tensor data generator and the batch
iterator of `tools/finetune_classification_cnn.py`, and of the CNN batch
feature extractor of `perception/feature_extractors.py`.

Modelling conventions:
* machine floats are modelled by exact rationals (the claims under study are
  stated under exact arithmetic);
* every random draw consumed from numpy or scipy (noise vectors, dropout index
  draws, coin flips) is an explicit argument, a "tape";
* Python runtime failures (`NameError`, `TypeError`) surface as `Except.error`;
* the per-field arrays are modelled in their non-image form (flat rank-1
  arrays, `Image.can_convert` false, no image callbacks installed): the
  statistics recurrences of `fit` act coordinatewise, so the scalar model
  below is the exact per-coordinate behaviour of the numpy code.
-/

/-- A Python runtime error raised while executing the generator code. -/
inductive PyErr where
  | nameError (var : String)
  | typeError (msg : String)
  deriving DecidableEq

/-! ## Dropout step of `random_transform` (lines 242-256)

`num_drop = int(rate * num_vals)` indices are drawn by
`np.random.choice(num_vals, size=num_drop)` — WITH replacement (numpy's
default) — and the entries at the drawn indices are assigned 0. -/

/-- `int(rate * num_vals)`: the number of dropout indices drawn. -/
def num_drop (rate : ℚ) (numVals : ℕ) : ℕ := (Int.floor (rate * numVals)).toNat

/-- Zero the entries of `x` whose position (counting from `k`) occurs in `inds`. -/
def zeroAtFrom (inds : List ℕ) : List ℚ → ℕ → List ℚ
  | [], _ => []
  | v :: vs, k => (if k ∈ inds then 0 else v) :: zeroAtFrom inds vs (k + 1)

/-- The data-field dropout step: the tape `draw` supplies the stream of
`np.random.choice` results; exactly `num_drop rate x.length` of them are
consumed and the entries of `x` at those indices are set to 0.
(The image-field branch is the same mechanism on the flattened 3-D array.) -/
def data_dropout (rate : ℚ) (x : List ℚ) (draw : List ℕ) : List ℚ :=
  zeroAtFrom (draw.take (num_drop rate x.length)) x 0

/-- Admissible result of `np.random.choice(x.length, size=num_drop rate x.length)`:
the tape holds at least `num_drop` indices and each drawn index is in range. -/
abbrev validDraw (rate : ℚ) (x : List ℚ) (draw : List ℕ) : Prop :=
  num_drop rate x.length ≤ draw.length ∧ ∀ i ∈ draw, i < x.length

/-! ## `random_transform` (lines 115-258) -/

/-- The augmentation configuration of `TensorDataGenerator` (the recognized
constructor options that `random_transform` reads on non-image fields). -/
structure AugCfg where
  rotationRange : ℚ
  rot180 : Bool
  heightShiftRange : ℚ
  widthShiftRange : ℚ
  shearRange : ℚ
  zoomRange : ℚ × ℚ
  channelShiftRange : ℚ
  horizontalFlip : Bool
  verticalFlip : Bool
  dataGaussianSigma : ℚ
  dataDropoutRate : ℚ

/-- The random draws one call of `random_transform` may consume. -/
structure Tape where
  thetaDraw : ℚ
  rotCoin : Bool
  shearDraw : ℚ
  zoomDraw : ℚ × ℚ
  hFlipCoin : Bool
  vFlipCoin : Bool
  noise : String → List ℚ
  dropDraw : String → List ℕ

/-- Support of the `ss.norm.rvs(scale=sigma, size=n)` draw: a vector of length
`n`, and the degenerate distribution at 0 when `sigma = 0`. -/
abbrev noiseInSupport (sigma : ℚ) (n : ℕ) (noise : List ℚ) : Prop :=
  noise.length = n ∧ (sigma = 0 → ∀ v ∈ noise, v = 0)

/-- `TensorDataGenerator.random_transform` on a sample dict of non-image
fields.  Faithful control-flow facts from the source:
* lines 147-155: the shift branches read the local variable `x`, which is
  never bound before that point, so a nonzero `height_shift_range` or
  `width_shift_range` raises `NameError` (the claim C8 bug);
* the affine-matrix loop (lines 192-201) binds the loop variable `x` but
  leaves non-image fields untouched (`Image.can_convert` false, no
  `image_tf_callback`); line 204's channel-shift branch reads `x`, which is
  bound only if that loop ran, and its result is discarded (never written back
  into `x_dict`), so an enabled channel shift either raises `NameError` (when
  the loop did not run) or has no effect;
* flips (lines 207-223) leave non-image fields untouched;
* noise (lines 236-239): `x += ss.norm.rvs(scale=data_gaussian_sigma, size=len(x))`;
* dropout (lines 250-255): `data_dropout` above. -/
def random_transform (cfg : AugCfg) (tape : Tape) (xd : List (String × List ℚ)) :
    Except PyErr (List (String × List ℚ)) :=
  let thetaZero : Bool :=
    if cfg.rotationRange ≠ 0 then decide (tape.thetaDraw = 0)
    else if cfg.rot180 then !tape.rotCoin   -- coin hit means theta = pi, nonzero
    else true
  if cfg.heightShiftRange ≠ 0 then .error (.nameError "x")
  else if cfg.widthShiftRange ≠ 0 then .error (.nameError "x")
  else
    let shear : ℚ := if cfg.shearRange ≠ 0 then tape.shearDraw else 0
    let zoom : ℚ × ℚ := if cfg.zoomRange = (1, 1) then (1, 1) else tape.zoomDraw
    let matrixPresent : Bool := (!thetaZero) || decide (shear ≠ 0) || decide (zoom ≠ (1, 1))
    if cfg.channelShiftRange ≠ 0 ∧ (matrixPresent = false ∨ xd = []) then
      .error (.nameError "x")
    else
      let noised := xd.map fun p => (p.1, p.2.zipWith (fun a b => a + b) (tape.noise p.1))
      let dropped := noised.map fun p =>
        (p.1, data_dropout cfg.dataDropoutRate p.2 (tape.dropDraw p.1))
      .ok dropped

/-! ## `standardize` (lines 71-113) -/

/-- The normalization configuration read by `standardize`.  `rescale` models
Python truthiness: the value 0 is falsy, i.e. disabled. -/
structure NormCfg where
  preprocess : Option (List ℚ → List ℚ)
  rescale : ℚ
  samplewiseCenter : Bool
  samplewiseStd : Bool
  featurewiseCenter : Bool
  featurewiseStd : Bool

/-- Warning text issued when `featurewise_center` was requested but `fit` was
never called (lines 100-103). -/
def msg_center : String :=
  "This TensorDataGenerator specifies featurewise_center, but it has not been fit on any training data"

/-- Warning text issued when `featurewise_std_normalization` was requested but
`fit` was never called (lines 108-111). -/
def msg_std : String :=
  "This TensorDataGenerator specifies featurewise_std_normalization, but it has not been fit on any training data"

/-- One field of `standardize`.  The samplewise branches call
`np.mean(x, axis=self.channel_axis - 1, keepdims=True)` with axis 2, which on
the rank-1 non-image fields modelled here raises a numpy axis error; the
featurewise branches subtract / divide by the fitted per-field statistics when
present and otherwise warn and leave the field alone.  Returns the normalized
field together with the warnings issued. -/
def standardizeField (cfg : NormCfg) (mean std : Option (String → List ℚ))
    (name : String) (x0 : List ℚ) : Except PyErr (List ℚ × List String) :=
  let x1 := match cfg.preprocess with
    | some f => f x0
    | none => x0
  let x2 := if cfg.rescale ≠ 0 then x1.map (fun v => v * cfg.rescale) else x1
  if cfg.samplewiseCenter then .error (.typeError "axis 2 is out of bounds")
  else if cfg.samplewiseStd then .error (.typeError "axis 2 is out of bounds")
  else
    let cstep : List ℚ × List String :=
      if cfg.featurewiseCenter then
        match mean with
        | some m => (x2.zipWith (fun a b => a - b) (m name), [])
        | none => (x2, [msg_center])
      else (x2, [])
    let sstep : List ℚ × List String :=
      if cfg.featurewiseStd then
        match std with
        | some s => (cstep.1.zipWith (fun a b => a / (b + 1 / 10000000)) (s name), [])
        | none => (cstep.1, [msg_std])
      else (cstep.1, [])
    .ok (sstep.1, cstep.2 ++ sstep.2)

/-- `TensorDataGenerator.standardize`: the per-field loop over the sample
dict, collecting the warnings issued along the way. -/
def standardize (cfg : NormCfg) (mean std : Option (String → List ℚ)) :
    List (String × List ℚ) → Except PyErr (List (String × List ℚ) × List String)
  | [] => .ok ([], [])
  | p :: rest =>
    match standardizeField cfg mean std p.1 p.2 with
    | .error e => .error e
    | .ok r =>
      match standardize cfg mean std rest with
      | .error e => .error e
      | .ok rr => .ok ((p.1, r.1) :: rr.1, r.2 ++ rr.2)

/-! ## `fit` (lines 273-411): the online statistics pass

Scalar (per-coordinate) model of the first fitting pass.  A dataset is a list
of chunks (tensor files); each chunk is the list of that coordinate's values
over the chunk's datapoints. -/

/-- The two toggles `fit` reads. -/
structure FitCfg where
  featurewiseCenter : Bool
  featurewiseStd : Bool
  deriving DecidableEq

/-- The running per-field statistics (`self.n`, `self.mean`, `self.ssq`);
`none` models the Python `None` the buffers are initialized to. -/
structure FitState where
  n : ℕ
  mean : Option ℚ
  ssq : Option ℚ
  deriving DecidableEq

/-- One iteration of the chunk loop of `fit` (lines 356-391).
`m_old = np.copy(self.mean[x_name])` is taken before the mean update; inside
the `featurewise_center` branch an uninitialized mean (and its copy `m_old`)
is replaced by zeros, the running count is increased by the chunk size and
`mean += chunk_sum / n_new - chunk_len * m_old / n_new`.  Inside the
`featurewise_std_normalization` branch an uninitialized `ssq` is replaced by
zeros and `ssq += sum((x - m_old) * (x - mean_new))`; when `m_old` (or the
mean) is still `None` — i.e. `featurewise_center` is off — the numpy
subtraction `x_tensor.arr - m_old` raises a `TypeError`. -/
def fit_chunk (cfg : FitCfg) (s : FitState) (c : List ℚ) : Except PyErr FitState :=
  let centered : FitState × Option ℚ :=
    if cfg.featurewiseCenter then
      let mOld : ℚ := s.mean.getD 0
      let nNew : ℕ := s.n + c.length
      let mNew : ℚ := c.sum / (nNew : ℚ)
      let mShrink : ℚ := (c.length : ℚ) * mOld / (nNew : ℚ)
      ({ n := nNew, mean := some (mOld + mNew - mShrink), ssq := s.ssq }, some mOld)
    else (s, s.mean)
  if cfg.featurewiseStd then
    match centered.2, centered.1.mean with
    | some mOld, some mNew =>
      .ok { centered.1 with
            ssq := some (centered.1.ssq.getD 0
              + (c.map (fun x => (x - mOld) * (x - mNew))).sum) }
    | _, _ => .error (.typeError "unsupported operand type for minus with NoneType")
  else .ok centered.1

/-- The whole chunk loop of `fit` for one field, from freshly initialized
buffers (`n = 0`, `mean = None`, `ssq = None`). -/
def fit_pass (cfg : FitCfg) (chunks : List (List ℚ)) : Except PyErr FitState :=
  List.foldlM (fit_chunk cfg) ⟨0, none, none⟩ chunks

/-- Line 394, `std = np.sqrt(ssq / (n - 1))`: the finalization divides the
accumulated `ssq` by `n - 1` with no guard whatsoever.  We record the variance
`ssq / (n - 1)` (the square root is taken in the theorem statements).  When
`ssq` is still `None` the Python division raises a `TypeError`.  Rational
division by zero yields 0 in Lean where numpy yields nan/inf; the claims below
rest on which inputs make the divisor `n - 1` vanish, not on the quotient's
value there. -/
def fit_finalize (s : FitState) : Except PyErr (FitState × ℚ) :=
  match s.ssq with
  | none => .error (.typeError "unsupported operand type for div with NoneType")
  | some q => .ok (s, q / ((s.n : ℚ) - 1))

/-- The statistics pass of `fit` for one field: chunk loop then finalization. -/
def fit_run (cfg : FitCfg) (chunks : List (List ℚ)) : Except PyErr (FitState × ℚ) :=
  Except.bind (fit_pass cfg chunks) fit_finalize

/-- The variance recorded by a completed `fit_run` (0 on the error branch). -/
def fitted_variance : Except PyErr (FitState × ℚ) → ℚ
  | .ok p => p.2
  | .error _ => 0

/-- Direct batch mean over all datapoints. -/
def batchMean (l : List ℚ) : ℚ := l.sum / (l.length : ℚ)

/-- Direct batch sum of squared deviations from the batch mean. -/
def batchSsq (l : List ℚ) : ℚ :=
  (l.map (fun x => (x - batchMean l) * (x - batchMean l))).sum

/-- Direct batch variance with divisor `N - 1`. -/
def batchVar (l : List ℚ) : ℚ := batchSsq l / ((l.length : ℚ) - 1)

/-! ## `TensorDatasetIterator` batching (lines 457-512) -/

/-- Line 458: `tensors_per_batch = 1 + batch_size / datapoints_per_file`
(Python 2 integer division). -/
def tensors_per_batch (batchSize dpPerFile : ℕ) : ℕ := 1 + batchSize / dpPerFile

/-- The number of batch slots filled by `_get_batches_of_transformed_samples`
when the claimed chunk index set covers chunks of the given sizes: for each
chunk in turn, `num_to_sample = min(num_datapoints, num_remaining)` datapoints
are drawn and queued (lines 480-512). -/
def num_filled (batchSize : ℕ) (sizes : List ℕ) : ℕ :=
  List.foldl (fun q s => q + min s (batchSize - q)) 0 sizes

/-! ## `CNNBatchFeatureExtractor` (`perception/feature_extractors.py`) -/

/-- An element of the image list handed to `extract`: either an AUTOLAB
`Image` instance or a raw array (`isImageInstance` false). -/
structure PImg where
  isImageInstance : Bool
  rawData : List ℚ
  deriving DecidableEq

/-- Wrapping a raw array as `ColorImage(image, frame='unspecified')`. -/
def wrap_color (im : PImg) : PImg := { im with isImageInstance := true }

/-- Lines 50-57: if any list element is not an `Image` instance, the whole
list is rebuilt with every element wrapped as a `ColorImage`. -/
def convert_images (images : List PImg) : List PImg :=
  if images.all (fun im => im.isImageInstance) then images else images.map wrap_color

/-- `CNNBatchFeatureExtractor._forward_pass`: returns `None` for an empty
image list (line 48-49) before touching the CNN; otherwise stacks the raw
data, runs the external CNN (`self.cnn_.featurize`, modelled as an arbitrary
function argument) and reshapes the resulting blobs to one flat row per blob
(`final_blobs.reshape(final_blobs.shape[0], -1)`). -/
def forward_pass (featurize : List (List ℚ) → List (List (List ℚ)))
    (images : List PImg) : Option (List (List ℚ)) :=
  if images.length = 0 then none
  else
    let imageArr := (convert_images images).map (fun im => im.rawData)
    let finalBlobs := featurize imageArr
    some (finalBlobs.map List.flatten)

/-- `CNNBatchFeatureExtractor.extract` delegates to `_forward_pass`. -/
def extract (featurize : List (List ℚ) → List (List (List ℚ)))
    (images : List PImg) : Option (List (List ℚ)) :=
  forward_pass featurize images

/-! ## Helper lemmas -/

lemma zeroAtFrom_nil (x : List ℚ) (k : ℕ) : zeroAtFrom [] x k = x := by
  induction x generalizing k with
  | nil => rfl
  | cons v vs ih => simp [zeroAtFrom, ih]

lemma zeroAtFrom_length (inds : List ℕ) (x : List ℚ) (k : ℕ) :
    (zeroAtFrom inds x k).length = x.length := by
  induction x generalizing k with
  | nil => rfl
  | cons v vs ih => simp [zeroAtFrom, ih]

lemma zeroAtFrom_getD (inds : List ℕ) (x : List ℚ) (k i : ℕ) (hi : i < x.length) :
    (zeroAtFrom inds x k).getD i 0 = if (k + i) ∈ inds then 0 else x.getD i 0 := by
  induction x generalizing k i with
  | nil => simp at hi
  | cons v vs ih =>
    cases i with
    | zero => simp [zeroAtFrom]
    | succ j =>
      have hj : j < vs.length := by simpa using hi
      have harith : k + 1 + j = k + (j + 1) := by omega
      simp only [zeroAtFrom, List.getD_cons_succ]
      rw [ih (k + 1) j hj, harith]

lemma num_drop_zero (n : ℕ) : num_drop 0 n = 0 := by
  simp [num_drop]

lemma num_drop_one (n : ℕ) : num_drop 1 n = n := by
  simp [num_drop]

lemma num_filled_aux (bs : ℕ) (sizes : List ℕ) :
    ∀ q, q ≤ bs →
      List.foldl (fun a s => a + min s (bs - a)) q sizes = min bs (q + sizes.sum) := by
  induction sizes with
  | nil => intro q hq; simp; omega
  | cons s t ih =>
    intro q hq
    simp only [List.foldl_cons, List.sum_cons]
    rw [ih (q + min s (bs - q)) (by omega)]
    omega

lemma num_filled_eq_min (bs : ℕ) (sizes : List ℕ) :
    num_filled bs sizes = min bs sizes.sum := by
  simpa [num_filled] using num_filled_aux bs sizes 0 (Nat.zero_le bs)

/-! ## Claim C2 -/

/-- C2: the spec demands a fatal `DegenerateInputError` when the running count
ends at `N_total <= 1`; the code has no such guard.  On a dataset holding a
single chunk with a single datapoint (value 5) and both featurewise toggles
on, `fit` completes its pass with `n = 1` and finalizes the std by dividing
the accumulated `ssq` by `n - 1 = 0` — numpy silently produces `nan` — rather
than raising any error. -/
theorem c2_fit_no_degenerate_guard :
    fit_run { featurewiseCenter := true, featurewiseStd := true } [[5]]
      = .ok (⟨1, some 5, some 0⟩, 0)
    ∧ fit_finalize ⟨1, some 5, some 0⟩
      = .ok (⟨1, some 5, some 0⟩, (0 : ℚ) / (((1 : ℕ) : ℚ) - 1)) := by
  constructor
  · simp [fit_run, fit_pass, fit_chunk, fit_finalize, Except.bind]
  · rfl

/-! ## Claim C4 -/

/-- C4 counterexample: with dropout rate 1.0 on the two-entry array `[1, 1]`,
the draw `[0, 0]` is an admissible result of
`np.random.choice(2, size=2)` (sampling is WITH replacement), and it leaves
entry 1 untouched: the result is `[0, 1]`, not the all-zero array the claim
demands. -/
theorem c4_dropout_counterexample :
    validDraw 1 [(1 : ℚ), 1] [0, 0] ∧
    data_dropout 1 [(1 : ℚ), 1] [0, 0] = [0, 1] ∧
    [(0 : ℚ), 1] ≠ [0, 0] := by
  refine ⟨⟨?_, ?_⟩, ?_, ?_⟩
  · simp [num_drop_one]
  · decide
  · show zeroAtFrom ([0, 0].take (num_drop 1 2)) [(1 : ℚ), 1] 0 = [0, 1]
    rw [num_drop_one]
    simp [zeroAtFrom]
  · simp

/-- C4 (amended): with dropout rate 0.0 the array is returned unchanged; with
dropout rate 1.0 the entries at the `num_vals` indices drawn WITH replacement
are zeroed and all other entries are unchanged — so entries whose index does
not occur in the draw survive, and the array is all-zero only when the draw
happens to cover every index. -/
theorem c4_dropout_amended (x : List ℚ) (d : List ℕ) :
    data_dropout 0 x d = x ∧
    (data_dropout 1 x d).length = x.length ∧
    (∀ i, i < x.length →
      (data_dropout 1 x d).getD i 0
        = if i ∈ d.take x.length then 0 else x.getD i 0) := by
  refine ⟨?_, ?_, ?_⟩
  · simp only [data_dropout, num_drop_zero, List.take_zero]
    exact zeroAtFrom_nil x 0
  · simp [data_dropout, zeroAtFrom_length]
  · intro i hi
    simp only [data_dropout, num_drop_one]
    simpa using zeroAtFrom_getD (d.take x.length) x 0 i hi

/-- C4 witness: concrete run of the amended statement on `x = [5, 7]`,
`draw = [0]`: index 1 is not drawn, so entry 1 keeps its value 7. -/
theorem c4_dropout_amended_witness :
    (1 < [(5 : ℚ), 7].length) ∧
    (data_dropout 1 [(5 : ℚ), 7] [0]).getD 1 0
      = if 1 ∈ [0].take [(5 : ℚ), 7].length then 0 else [(5 : ℚ), 7].getD 1 0 :=
  ⟨by decide, (c4_dropout_amended [(5 : ℚ), 7] [0]).2.2 1 (by decide)⟩

/-! ## Claim C6 -/

/-- C6 counterexample: `batch_size = 32` with chunk capacity 10 over a dataset
of 31 datapoints (chunks of sizes 10, 10, 10 and a final partial chunk of 1):
the iterator claims `1 + 32 / 10 = 4` chunk indices, yet the batch fills only
`10 + 10 + 10 + 1 = 31` slots — fewer than the requested 32. -/
theorem c6_batch_fill_counterexample :
    tensors_per_batch 32 10 = 4 ∧
    num_filled 32 [10, 10, 10, 1] = 31 ∧
    (31 : ℕ) ≠ 32 := by
  decide

/-- C6 (amended): a batch fills `min(batch_size, total datapoints of the
claimed chunks)` slots; in particular it fills exactly `batch_size` whenever
the claimed index set holds `1 + batch_size / capacity` chunks each at full
chunk capacity.  With a partial chunk (or a partial final index batch of an
epoch) the fill can fall short, as the counterexample shows. -/
theorem c6_batch_fill_amended (bs cap : ℕ) (sizes : List ℕ) (hcap : 0 < cap)
    (hlen : sizes.length = tensors_per_batch bs cap)
    (hfull : ∀ s ∈ sizes, s = cap) :
    num_filled bs sizes = bs := by
  have hrep : sizes = List.replicate (tensors_per_batch bs cap) cap := by
    rw [List.eq_replicate_iff]
    exact ⟨hlen, hfull⟩
  have hsum : sizes.sum = tensors_per_batch bs cap * cap := by
    rw [hrep, List.sum_replicate, smul_eq_mul]
  have h3 : tensors_per_batch bs cap * cap = cap + cap * (bs / cap) := by
    simp [tensors_per_batch]
    ring
  have h1 := Nat.div_add_mod bs cap
  have h2 : bs % cap < cap := Nat.mod_lt _ hcap
  rw [num_filled_eq_min, hsum]
  omega

/-- C6 witness: four full chunks of capacity 10 fill a 32-batch exactly. -/
theorem c6_batch_fill_amended_witness :
    (0 < 10) ∧ ([10, 10, 10, 10].length = tensors_per_batch 32 10) ∧
    (∀ s ∈ [10, 10, 10, 10], s = 10) ∧
    num_filled 32 [10, 10, 10, 10] = 32 :=
  ⟨by decide, by decide, by decide,
    c6_batch_fill_amended 32 10 [10, 10, 10, 10] (by decide) (by decide) (by decide)⟩

/-! ## Claim C8 -/

/-- C8: the shift branches of `random_transform` (lines 147-155) read the
local variable `x` before any assignment to it, so any call with a nonzero
`height_shift_range` or `width_shift_range` raises a `NameError`; the
function can only return normally when both shift ranges are disabled. -/
theorem c8_shift_always_fails (cfg : AugCfg) (tape : Tape)
    (xd : List (String × List ℚ))
    (h : cfg.heightShiftRange ≠ 0 ∨ cfg.widthShiftRange ≠ 0) :
    random_transform cfg tape xd = .error (.nameError "x") := by
  by_cases hh : cfg.heightShiftRange = 0
  · rcases h with h | h
    · exact absurd hh h
    · simp [random_transform, hh, h]
  · simp [random_transform, hh]

/-- C8 witness: a concrete call with `height_shift_range = 1/10` fails. -/
theorem c8_shift_always_fails_witness :
    ((1 : ℚ) / 10 ≠ 0 ∨ (0 : ℚ) ≠ 0) ∧
    random_transform
      { rotationRange := 0, rot180 := false, heightShiftRange := 1 / 10,
        widthShiftRange := 0, shearRange := 0, zoomRange := (1, 1),
        channelShiftRange := 0, horizontalFlip := false, verticalFlip := false,
        dataGaussianSigma := 0, dataDropoutRate := 0 }
      { thetaDraw := 0, rotCoin := false, shearDraw := 0, zoomDraw := (1, 1),
        hFlipCoin := false, vFlipCoin := false,
        noise := fun _ => [], dropDraw := fun _ => [] }
      [("grasp_metric", [1])] = .error (.nameError "x") :=
  ⟨Or.inl (by norm_num),
    c8_shift_always_fails _ _ _ (Or.inl (by norm_num))⟩

/-! ## Claim C9 -/

/-- C9 counterexample to the claimed mechanism: with
`featurewise_std_normalization` on and `featurewise_center` off, `fit` never
reaches the finalization `ssq / (n - 1)` at all — already on the first chunk
the update `(x_tensor.arr - m_old)` subtracts the still-`None` mean and
raises a `TypeError`. -/
theorem c9_center_off_counterexample :
    fit_run { featurewiseCenter := false, featurewiseStd := true } [[1]]
      = .error (.typeError "unsupported operand type for minus with NoneType") := rfl

/-- C9 (amended): fitting with `featurewise_std_normalization` enabled but
`featurewise_center` disabled never produces a valid std: the running count
and mean are only updated inside the `featurewise_center` branch, so the mean
is still `None` when the first `ssq` update subtracts it (`TypeError`), and
with no chunks at all the finalization divides the still-`None` `ssq`
(`TypeError`); `fit_run` fails on every dataset, so a finite nonnegative std
is only guaranteed when `featurewise_center` is also enabled. -/
theorem c9_center_off_never_valid_std (chunks : List (List ℚ)) :
    ∃ e, fit_run { featurewiseCenter := false, featurewiseStd := true } chunks
      = .error e := by
  cases chunks with
  | nil => exact ⟨_, rfl⟩
  | cons c rest => exact ⟨_, rfl⟩

/-! ## Claim C10 -/

/-- C10: `CNNBatchFeatureExtractor.extract` returns `None` on the empty image
list (before touching the CNN, so nothing is raised), and on every non-empty
list returns the CNN blobs reshaped to one flat row per image. -/
theorem c10_extract_empty_and_rows
    (featurize : List (List ℚ) → List (List (List ℚ))) :
    extract featurize [] = none ∧
    ∀ images : List PImg, images ≠ [] →
      extract featurize images
        = some ((featurize ((convert_images images).map (fun im => im.rawData))).map
            List.flatten) := by
  refine ⟨rfl, ?_⟩
  intro images h
  simp [extract, forward_pass, List.length_eq_zero, h]

/-- C10 witness: a one-image list with a CNN stub returning one 1x1 blob. -/
theorem c10_extract_witness :
    ([({ isImageInstance := true, rawData := [2] } : PImg)] ≠ []) ∧
    extract (fun _ => [[[1]]]) [{ isImageInstance := true, rawData := [2] }]
      = some [[(1 : ℚ)]] :=
  ⟨by decide,
    ((c10_extract_empty_and_rows (fun _ => [[[1]]])).2
      [{ isImageInstance := true, rawData := [2] }] (by decide)).trans (by simp)⟩

/-! ## Claim C3 -/

lemma data_dropout_zero (x : List ℚ) (d : List ℕ) : data_dropout 0 x d = x := by
  simp only [data_dropout, num_drop_zero, List.take_zero]
  exact zeroAtFrom_nil x 0

lemma standardizeField_missing (cfg : NormCfg) (name : String) (x : List ℚ)
    (hp : cfg.preprocess = none) (hr : cfg.rescale = 0)
    (hsc : cfg.samplewiseCenter = false) (hss : cfg.samplewiseStd = false) :
    standardizeField cfg none none name x
      = .ok (x, (if cfg.featurewiseCenter then [msg_center] else [])
          ++ if cfg.featurewiseStd then [msg_std] else []) := by
  cases hc : cfg.featurewiseCenter <;> cases hs : cfg.featurewiseStd <;>
    simp [standardizeField, hp, hr, hsc, hss, hc, hs]

lemma standardize_missing_eq (cfg : NormCfg) (xd : List (String × List ℚ))
    (hp : cfg.preprocess = none) (hr : cfg.rescale = 0)
    (hsc : cfg.samplewiseCenter = false) (hss : cfg.samplewiseStd = false) :
    standardize cfg none none xd
      = .ok (xd, (xd.map (fun _ =>
          (if cfg.featurewiseCenter then [msg_center] else [])
            ++ if cfg.featurewiseStd then [msg_std] else [])).flatten) := by
  induction xd with
  | nil => rfl
  | cons p t ih =>
    simp only [standardize, standardizeField_missing cfg p.1 p.2 hp hr hsc hss,
      ih, List.map_cons, List.flatten_cons]

/-- C3: when `standardize` runs with `featurewise_center` or
`featurewise_std_normalization` requested but the fitted statistics still
`None`, it reports a warning for each enabled-but-unfit normalization of each
field, skips that normalization (the fields come back unchanged), and returns
normally instead of raising. -/
theorem c3_standardize_missing_stats_warns (cfg : NormCfg)
    (xd : List (String × List ℚ))
    (hp : cfg.preprocess = none) (hr : cfg.rescale = 0)
    (hsc : cfg.samplewiseCenter = false) (hss : cfg.samplewiseStd = false)
    (hon : cfg.featurewiseCenter = true ∨ cfg.featurewiseStd = true)
    (hxd : xd ≠ []) :
    standardize cfg none none xd
      = .ok (xd, (xd.map (fun _ =>
          (if cfg.featurewiseCenter then [msg_center] else [])
            ++ if cfg.featurewiseStd then [msg_std] else [])).flatten)
    ∧ (xd.map (fun _ =>
          (if cfg.featurewiseCenter then [msg_center] else [])
            ++ if cfg.featurewiseStd then [msg_std] else [])).flatten ≠ [] := by
  refine ⟨standardize_missing_eq cfg xd hp hr hsc hss, ?_⟩
  cases xd with
  | nil => exact absurd rfl hxd
  | cons p t =>
    rcases hon with h | h <;> cases hc : cfg.featurewiseCenter <;>
      simp_all

/-- C3 witness: both featurewise options on, statistics never fit, a one-field
sample: both warnings are issued and the field comes back untouched. -/
theorem c3_standardize_missing_stats_witness :
    (({ preprocess := none, rescale := 0, samplewiseCenter := false,
        samplewiseStd := false, featurewiseCenter := true,
        featurewiseStd := true } : NormCfg).featurewiseCenter = true
      ∨ ({ preprocess := none, rescale := 0, samplewiseCenter := false,
            samplewiseStd := false, featurewiseCenter := true,
            featurewiseStd := true } : NormCfg).featurewiseStd = true) ∧
    ([(("depth_ims", [2]) : String × List ℚ)] ≠ []) ∧
    standardize
      { preprocess := none, rescale := 0, samplewiseCenter := false,
        samplewiseStd := false, featurewiseCenter := true, featurewiseStd := true }
      none none [("depth_ims", [2])]
      = .ok ([("depth_ims", [2])], [msg_center, msg_std]) :=
  ⟨Or.inl rfl, by decide,
    ((c3_standardize_missing_stats_warns _ _ rfl rfl rfl rfl (Or.inl rfl)
      (by decide)).1).trans (by simp)⟩

/-! ## Claim C5 -/

lemma zipWith_add_zero_noise (x noise : List ℚ) (hlen : noise.length = x.length)
    (hz : ∀ v ∈ noise, v = 0) :
    x.zipWith (fun a b => a + b) noise = x := by
  induction x generalizing noise with
  | nil => simp
  | cons a t ih =>
    cases noise with
    | nil => simp at hlen
    | cons b bs =>
      have hb : b = 0 := hz b (by simp)
      have hl : bs.length = t.length := by simpa using hlen
      simp [hb, ih bs hl (fun v hv => hz v (by simp [hv]))]

lemma list_map_id_of {α : Type} (l : List α) (f : α → α)
    (h : ∀ a ∈ l, f a = a) : l.map f = l := by
  induction l with
  | nil => rfl
  | cons a t ih =>
    rw [List.map_cons, h a (by simp), ih (fun b hb => h b (by simp [hb]))]

lemma random_transform_all_off (cfg : AugCfg) (tape : Tape)
    (xd : List (String × List ℚ))
    (h1 : cfg.heightShiftRange = 0) (h2 : cfg.widthShiftRange = 0)
    (h3 : cfg.channelShiftRange = 0) (h4 : cfg.dataDropoutRate = 0)
    (hnoise : ∀ p ∈ xd, (tape.noise p.1).length = p.2.length
      ∧ ∀ v ∈ tape.noise p.1, v = 0) :
    random_transform cfg tape xd = .ok xd := by
  simp only [random_transform, h1, h2, h3, h4, ne_eq, not_true_eq_false,
    if_false, false_and, List.map_map]
  rw [list_map_id_of]
  intro p hp
  obtain ⟨hl, hz⟩ := hnoise p hp
  simp only [Function.comp_apply]
  rw [zipWith_add_zero_noise p.2 (tape.noise p.1) hl hz, data_dropout_zero]

lemma standardize_all_off (cfg : NormCfg) (mean std : Option (String → List ℚ))
    (xd : List (String × List ℚ))
    (hp : cfg.preprocess = none) (hr : cfg.rescale = 0)
    (hsc : cfg.samplewiseCenter = false) (hss : cfg.samplewiseStd = false)
    (hfc : cfg.featurewiseCenter = false) (hfs : cfg.featurewiseStd = false) :
    standardize cfg mean std xd = .ok (xd, []) := by
  induction xd with
  | nil => rfl
  | cons p t ih =>
    have hf : standardizeField cfg mean std p.1 p.2 = .ok (p.2, []) := by
      simp [standardizeField, hp, hr, hsc, hss, hfc, hfs]
    simp [standardize, hf, ih]

/-- C5 counterexample: at the generator's DEFAULT parameter values the noise
sigma is `1e-6`, not 0, and the noise-injection step runs unconditionally, so
the composition is not the identity: on the one-field sample `[1]` the noise
draw `[1e-6]` — an admissible draw from `N(0, 1e-6)` — changes the sample. -/
theorem c5_identity_counterexample :
    noiseInSupport (1 / 1000000) 1 [1 / 1000000] ∧
    Except.bind
      (random_transform
        { rotationRange := 0, rot180 := false, heightShiftRange := 0,
          widthShiftRange := 0, shearRange := 0, zoomRange := (1, 1),
          channelShiftRange := 0, horizontalFlip := false, verticalFlip := false,
          dataGaussianSigma := 1 / 1000000, dataDropoutRate := 0 }
        { thetaDraw := 0, rotCoin := false, shearDraw := 0, zoomDraw := (1, 1),
          hFlipCoin := false, vFlipCoin := false,
          noise := fun _ => [1 / 1000000], dropDraw := fun _ => [] }
        [("grasps", [1])])
      (standardize
        { preprocess := none, rescale := 0, samplewiseCenter := false,
          samplewiseStd := false, featurewiseCenter := false,
          featurewiseStd := false } none none)
      = .ok ([("grasps", [1 + 1 / 1000000])], []) ∧
    ([("grasps", [1 + 1 / 1000000])] : List (String × List ℚ))
      ≠ [("grasps", [1])] := by
  refine ⟨⟨rfl, fun h => absurd h (by norm_num)⟩, ?_, by norm_num⟩
  have h1 : random_transform
      { rotationRange := 0, rot180 := false, heightShiftRange := 0,
        widthShiftRange := 0, shearRange := 0, zoomRange := (1, 1),
        channelShiftRange := 0, horizontalFlip := false, verticalFlip := false,
        dataGaussianSigma := 1 / 1000000, dataDropoutRate := 0 }
      { thetaDraw := 0, rotCoin := false, shearDraw := 0, zoomDraw := (1, 1),
        hFlipCoin := false, vFlipCoin := false,
        noise := fun _ => [1 / 1000000], dropDraw := fun _ => [] }
      [("grasps", [1])] = .ok [("grasps", [1 + 1 / 1000000])] := by
    simp [random_transform, data_dropout_zero]
  rw [h1]
  exact standardize_all_off _ none none _ rfl rfl rfl rfl rfl rfl

/-- C5 (amended): with every augmentation toggle off AND the gaussian noise
sigmas and dropout rates equal to 0 (the defaults `1e-6` for the sigmas do
NOT disable noise), and all normalization options off,
`standardize(random_transform(x))` returns the sample unchanged with no
warnings. -/
theorem c5_identity_amended (cfg : AugCfg) (ncfg : NormCfg) (tape : Tape)
    (mean std : Option (String → List ℚ)) (xd : List (String × List ℚ))
    (_hrot : cfg.rotationRange = 0) (_hrot180 : cfg.rot180 = false)
    (h1 : cfg.heightShiftRange = 0) (h2 : cfg.widthShiftRange = 0)
    (_hshear : cfg.shearRange = 0) (_hzoom : cfg.zoomRange = (1, 1))
    (h3 : cfg.channelShiftRange = 0)
    (_hhf : cfg.horizontalFlip = false) (_hvf : cfg.verticalFlip = false)
    (hsig : cfg.dataGaussianSigma = 0) (h4 : cfg.dataDropoutRate = 0)
    (hnoise : ∀ p ∈ xd, noiseInSupport cfg.dataGaussianSigma p.2.length
      (tape.noise p.1))
    (hp : ncfg.preprocess = none) (hr : ncfg.rescale = 0)
    (hsc : ncfg.samplewiseCenter = false) (hss : ncfg.samplewiseStd = false)
    (hfc : ncfg.featurewiseCenter = false) (hfs : ncfg.featurewiseStd = false) :
    Except.bind (random_transform cfg tape xd) (standardize ncfg mean std)
      = .ok (xd, []) := by
  have ht : random_transform cfg tape xd = .ok xd := by
    refine random_transform_all_off cfg tape xd h1 h2 h3 h4 ?_
    intro p hp'
    obtain ⟨hl, hz⟩ := hnoise p hp'
    exact ⟨hl, hz hsig⟩
  rw [ht]
  exact standardize_all_off ncfg mean std xd hp hr hsc hss hfc hfs

/-- C5 witness: concrete run of the amended statement with sigma 0 and all
options off on the sample `[("gripper_poses", [1])]`. -/
theorem c5_identity_amended_witness :
    (∀ p ∈ [(("gripper_poses", [1]) : String × List ℚ)],
      noiseInSupport (0 : ℚ) p.2.length
        ((fun (_ : String) => [(0 : ℚ)]) p.1)) ∧
    Except.bind
      (random_transform
        { rotationRange := 0, rot180 := false, heightShiftRange := 0,
          widthShiftRange := 0, shearRange := 0, zoomRange := (1, 1),
          channelShiftRange := 0, horizontalFlip := false, verticalFlip := false,
          dataGaussianSigma := 0, dataDropoutRate := 0 }
        { thetaDraw := 0, rotCoin := false, shearDraw := 0, zoomDraw := (1, 1),
          hFlipCoin := false, vFlipCoin := false,
          noise := fun _ => [0], dropDraw := fun _ => [] }
        [("gripper_poses", [1])])
      (standardize
        { preprocess := none, rescale := 0, samplewiseCenter := false,
          samplewiseStd := false, featurewiseCenter := false,
          featurewiseStd := false } none none)
      = .ok ([("gripper_poses", [1])], []) :=
  ⟨by
      intro p hp
      simp only [List.mem_singleton] at hp
      subst hp
      exact ⟨rfl, fun _ => fun v hv => by simpa using hv⟩,
    c5_identity_amended _ _ _ none none _ rfl rfl rfl rfl rfl rfl rfl
      rfl rfl rfl rfl
      (by
        intro p hp
        simp only [List.mem_singleton] at hp
        subst hp
        exact ⟨rfl, fun _ => fun v hv => by simpa using hv⟩)
      rfl rfl rfl rfl rfl rfl⟩

/-! ## Claim C1 -/

lemma sum_map_sub_mul (l : List ℚ) (a b : ℚ) :
    (l.map (fun x => (x - a) * (x - b))).sum
      = (l.map (fun x => x * x)).sum - (a + b) * l.sum
        + (l.length : ℚ) * (a * b) := by
  induction l with
  | nil => simp
  | cons x t ih =>
    simp only [List.map_cons, List.sum_cons, List.length_cons, ih]
    push_cast
    ring

lemma length_mul_batchMean (l : List ℚ) :
    (l.length : ℚ) * batchMean l = l.sum := by
  rcases eq_or_ne l.length 0 with h | h
  · have : l = [] := List.length_eq_zero.mp h
    subst this
    simp [batchMean]
  · rw [batchMean, mul_comm, div_mul_cancel₀]
    exact Nat.cast_ne_zero.mpr h

lemma fit_chunk_step (L c : List ℚ) (hc : c ≠ []) :
    fit_chunk ⟨true, true⟩ ⟨L.length, some (batchMean L), some (batchSsq L)⟩ c
      = .ok ⟨(L ++ c).length, some (batchMean (L ++ c)),
             some (batchSsq (L ++ c))⟩ := by
  have hT : ((L.length + c.length : ℕ) : ℚ) ≠ 0 := by
    have hcl : c.length ≠ 0 := by
      simpa [List.length_eq_zero] using hc
    exact Nat.cast_ne_zero.mpr (by omega)
  have hshape : fit_chunk ⟨true, true⟩
      ⟨L.length, some (batchMean L), some (batchSsq L)⟩ c
      = .ok ⟨L.length + c.length,
             some (batchMean L + c.sum / ((L.length + c.length : ℕ) : ℚ)
               - (c.length : ℚ) * batchMean L / ((L.length + c.length : ℕ) : ℚ)),
             some (batchSsq L + (c.map (fun x => (x - batchMean L)
               * (x - (batchMean L + c.sum / ((L.length + c.length : ℕ) : ℚ)
                   - (c.length : ℚ) * batchMean L
                     / ((L.length + c.length : ℕ) : ℚ))))).sum)⟩ := rfl
  have hSL : (L.length : ℚ) * batchMean L = L.sum := length_mul_batchMean L
  have hmu : ((L ++ c).length : ℚ) * batchMean (L ++ c) = (L ++ c).sum :=
    length_mul_batchMean (L ++ c)
  rw [List.length_append, List.sum_append] at hmu
  push_cast at hmu
  have hmean : batchMean L + c.sum / ((L.length + c.length : ℕ) : ℚ)
      - (c.length : ℚ) * batchMean L / ((L.length + c.length : ℕ) : ℚ)
      = batchMean (L ++ c) := by
    push_cast
    push_cast at hT
    field_simp
    linear_combination hSL - hmu
  rw [hshape, hmean]
  have hssq : batchSsq L
      + (c.map (fun x => (x - batchMean L) * (x - batchMean (L ++ c)))).sum
      = batchSsq (L ++ c) := by
    simp only [batchSsq, sum_map_sub_mul, List.map_append, List.sum_append,
      List.length_append]
    linear_combination (batchMean L - batchMean (L ++ c)) * hSL
      + (batchMean L - batchMean (L ++ c)) * hmu
  rw [hssq]
  simp [List.length_append]

lemma fit_fold_inv (chunks : List (List ℚ)) (hc : ∀ c ∈ chunks, c ≠ []) :
    ∀ L : List ℚ,
      List.foldlM (fit_chunk ⟨true, true⟩)
        (⟨L.length, some (batchMean L), some (batchSsq L)⟩ : FitState) chunks
      = .ok ⟨(L ++ chunks.flatten).length, some (batchMean (L ++ chunks.flatten)),
             some (batchSsq (L ++ chunks.flatten))⟩ := by
  induction chunks with
  | nil =>
    intro L
    simp only [List.foldlM_nil, List.flatten_nil, List.append_nil]
    rfl
  | cons c rest ih =>
    intro L
    rw [List.foldlM_cons, fit_chunk_step L c (hc c (by simp))]
    show List.foldlM (fit_chunk ⟨true, true⟩)
        (⟨(L ++ c).length, some (batchMean (L ++ c)),
          some (batchSsq (L ++ c))⟩ : FitState) rest = _
    rw [ih (fun c' h' => hc c' (by simp [h'])) (L ++ c)]
    simp [List.append_assoc]

lemma fit_pass_both (chunks : List (List ℚ)) (hne : chunks ≠ [])
    (hc : ∀ c ∈ chunks, c ≠ []) :
    fit_pass ⟨true, true⟩ chunks
      = .ok ⟨chunks.flatten.length, some (batchMean chunks.flatten),
             some (batchSsq chunks.flatten)⟩ := by
  cases chunks with
  | nil => exact absurd rfl hne
  | cons c rest =>
    have hstate : (⟨0, some 0, some 0⟩ : FitState)
        = ⟨([] : List ℚ).length, some (batchMean []), some (batchSsq [])⟩ := by
      simp [batchMean, batchSsq]
    have hbase : fit_chunk ⟨true, true⟩ (⟨0, none, none⟩ : FitState) c
        = fit_chunk ⟨true, true⟩ (⟨0, some 0, some 0⟩ : FitState) c := rfl
    have h1 : fit_pass ⟨true, true⟩ (c :: rest)
        = List.foldlM (fit_chunk ⟨true, true⟩)
            (⟨0, some 0, some 0⟩ : FitState) (c :: rest) := by
      rw [fit_pass, List.foldlM_cons, List.foldlM_cons, hbase]
    rw [h1, hstate, fit_fold_inv (c :: rest) hc [], List.nil_append]

/-- C1: with both `featurewise_center` and `featurewise_std_normalization`
enabled, on any dataset of 2 or more nonempty sampled chunks with more than
one datapoint in total, the incremental per-chunk updates of `fit`
(`mean += chunk_sum / N_total - chunk_len * mean_old / N_total` and the
asymmetric `ssq += sum((x - mean_old) * (x - mean_new))`) produce — under
exact arithmetic — exactly the direct batch mean over all datapoints of the
sampled chunks and exactly the direct batch sum of squared deviations, hence
the finalized std `sqrt(ssq / (N_total - 1))` equals the direct batch std
with divisor `N_total - 1`. -/
theorem c1_incremental_fit_matches_batch (chunks : List (List ℚ))
    (hA : 2 ≤ chunks.length) (hB : ∀ c ∈ chunks, c ≠ [])
    (_hC : 1 < chunks.flatten.length) :
    fit_run ⟨true, true⟩ chunks
      = .ok (⟨chunks.flatten.length, some (batchMean chunks.flatten),
              some (batchSsq chunks.flatten)⟩, batchVar chunks.flatten)
    ∧ Real.sqrt ((fitted_variance (fit_run ⟨true, true⟩ chunks) : ℚ) : ℝ)
      = Real.sqrt ((batchVar chunks.flatten : ℚ) : ℝ) := by
  have hne : chunks ≠ [] := by
    intro h
    subst h
    simp at hA
  have hp := fit_pass_both chunks hne hB
  have hrun : fit_run ⟨true, true⟩ chunks
      = .ok (⟨chunks.flatten.length, some (batchMean chunks.flatten),
              some (batchSsq chunks.flatten)⟩, batchVar chunks.flatten) := by
    rw [fit_run, hp]
    rfl
  refine ⟨hrun, ?_⟩
  rw [hrun]
  rfl

/-- C1 witness: the two-chunk dataset `[[1], [2, 3]]` (3 datapoints):
incremental mean 2 and ssq 2 match the batch values. -/
theorem c1_incremental_fit_matches_batch_witness :
    (2 ≤ ([[(1 : ℚ)], [2, 3]] : List (List ℚ)).length) ∧
    (∀ c ∈ ([[(1 : ℚ)], [2, 3]] : List (List ℚ)), c ≠ []) ∧
    (1 < ([[(1 : ℚ)], [2, 3]] : List (List ℚ)).flatten.length) ∧
    fit_run ⟨true, true⟩ [[(1 : ℚ)], [2, 3]]
      = .ok (⟨([[(1 : ℚ)], [2, 3]] : List (List ℚ)).flatten.length,
              some (batchMean ([[(1 : ℚ)], [2, 3]] : List (List ℚ)).flatten),
              some (batchSsq ([[(1 : ℚ)], [2, 3]] : List (List ℚ)).flatten)⟩,
             batchVar ([[(1 : ℚ)], [2, 3]] : List (List ℚ)).flatten) :=
  ⟨by decide, by decide, by decide,
    (c1_incremental_fit_matches_batch [[(1 : ℚ)], [2, 3]]
      (by decide) (by decide) (by decide)).1⟩
